import Mathlib

/-!
Shallow embedding of the CloudCreator Blender add-on
(plainprince/cloudcreator, src/__init__.py) and verification of its
specification claims.

Floats of the source are embedded as rationals; the host application
(Blender) scene graph is embedded as explicit state (a list of scene
objects), and the global pseudo-random generator of the Python standard
library is embedded as explicit state threaded through the functions
that use it.
-/

namespace CloudCreator

/-- Model of the global generator of the Python standard library module
"random" (library code, not part of this repository): a seeded
deterministic stream, represented by the seed last set and the number of
draws made since.  The concrete mixing function is a stand-in for the
Mersenne Twister; the properties used are only that the stream is a
function of (seed, index) and that each draw lands in the requested
interval. -/
structure PyRandom where
  seedVal : Nat
  idx : Nat
deriving Repr, DecidableEq

/-- Effect of random.seed(s): the whole generator state is reset. -/
def PyRandom.seeded (s : Nat) : PyRandom := ⟨s, 0⟩

/-- Deterministic mixing function giving the raw 32-bit draw. -/
def randBits (s i : Nat) : Nat :=
  (s * 2654435761 + i * 2246822519 + 374761393) % 4294967296

/-- Model of random.uniform(a, b): a + (b - a) * t with t in [0, 1). -/
def PyRandom.uniform (g : PyRandom) (a b : ℚ) : ℚ × PyRandom :=
  (a + (b - a) * ((randBits g.seedVal g.idx : ℚ) / 4294967296),
   ⟨g.seedVal, g.idx + 1⟩)

/-- The enumeration items of the cloud_type EnumProperty. -/
inductive CloudType
  | single
  | sphere
deriving Repr, DecidableEq

/-- The identifier string of an enumeration item, as stored by the host. -/
def CloudType.enumStr : CloudType → String
  | .single => "single"
  | .sphere => "sphere"

/-- The CloudCreatorProperties PropertyGroup: the settings record attached
to the scene.  Bounded floats become rationals; the bounds themselves are
enforced by the host UI and are not needed by any claim. -/
structure CloudCreatorProperties where
  add_cloud : Bool
  seed : Nat
  multiple : Bool
  cloud_type : CloudType
  cloud_spread : ℚ
  shadow_spread : ℚ
  cloud_height : ℚ
  cloud_shadows : Bool
  add_light : Bool
deriving Repr, DecidableEq

/-- A 3-vector of rationals (locations, scales, mapping offsets). -/
structure Vec3 where
  x : ℚ
  y : ℚ
  z : ℚ
deriving Repr, DecidableEq

/-- An RGBA color. -/
structure Color4 where
  r : ℚ
  g : ℚ
  b : ℚ
  a : ℚ
deriving Repr, DecidableEq

/-- One stop of a color ramp: position and color. -/
structure RampElem where
  position : ℚ
  color : Color4
deriving Repr, DecidableEq

/-- A shader node.  The record is flat: it carries every input that the
add-on ever reads or writes on some node type (Location on mapping nodes,
Scale and Detail on noise nodes, Base Color on the principled BSDF, the
ramp stops on a color ramp); fields not meaningful for a node type are
simply never touched.  ntype is the node.type enum string of the host
(for example "MAPPING"). -/
structure ShaderNode where
  name : String
  label : String
  ntype : String
  editorLoc : ℚ × ℚ
  inputLocation : Vec3
  inputScale : ℚ
  inputDetail : ℚ
  inputBaseColor : Color4
  rampElements : List RampElem
deriving Repr, DecidableEq

/-- A link of the node tree: from a named output socket of one node to a
named input socket of another. -/
structure NodeLink where
  fromNode : String
  fromSocket : String
  toNode : String
  toSocket : String
deriving Repr, DecidableEq

/-- A material with its node tree. -/
structure Material where
  matName : String
  use_nodes : Bool
  blend_method : String
  nodes : List ShaderNode
  links : List NodeLink
deriving Repr, DecidableEq

/-- Symbolic 4x4 transform matrices, enough to state which matrix a field
holds: a translate-scale world matrix built from an object transform, or
the inverse of a matrix. -/
inductive Mat
  | trs (loc : Vec3) (scale : Vec3)
  | inverse (m : Mat)
deriving Repr, DecidableEq

/-- An angle.  math.radians multiplies by pi / 180; since pi is
irrational the angle is represented by its degree measure, and
mathRadians is the embedding of math.radians. -/
structure Angle where
  deg : ℚ
deriving Repr, DecidableEq

/-- Embedding of math.radians (degrees to radians). -/
def mathRadians (d : ℚ) : Angle := ⟨d⟩

/-- The light datablock of an area light object. -/
structure LightData where
  dataName : String
  energy : ℚ
  shape : String
  size : ℚ
  spread : Angle
deriving Repr, DecidableEq

/-- A scene object.  meshScale is the scale already baked into the mesh
data (transform_apply folds obj.scale into it); materials is the material
slot list (a slot may be empty, as in Blender). -/
structure SceneObject where
  name : String
  location : Vec3
  scale : Vec3
  meshScale : Vec3
  visible_shadow : Bool
  visible_camera : Bool
  materials : List (Option Material)
  parent : Option String
  matrix_parent_inverse : Option Mat
  lightData : Option LightData
deriving Repr, DecidableEq

/-- The world matrix of an unparented object, as a symbolic matrix. -/
def SceneObject.matrixWorld (o : SceneObject) : Mat :=
  Mat.trs o.location o.scale

/-- The bundled asset library (assets.blend): whether the file exists,
the names of the objects it holds (data_from.objects), and the stored
object data fetched for a name (the host may in principle fail to
deliver an object even for a listed name, hence Option). -/
structure AssetLibrary where
  fileExists : Bool
  objectNames : List String
  fetch : String → Option SceneObject

/-- get_addon_path: the addon install directory (host filesystem detail,
represented by a fixed string). -/
def get_addon_path : String := "addon"

/-- get_assets_path: path of the bundled assets.blend file. -/
def get_assets_path : String := get_addon_path ++ "/assets/assets.blend"

/-- Embedding of the Python str.startswith test. -/
def pyStartswith (s pfx : String) : Bool :=
  pfx.data.isPrefixOf s.data

/-- One step of rename_material_nodes: a node is renamed (and its label
set to the new name) unless its name already starts with the tag. -/
def renameNode (pfx : String) (n : ShaderNode) : ShaderNode :=
  if pyStartswith n.name pfx then n
  else
    let newName := pfx ++ "_" ++ n.name
    { n with name := newName, label := newName }

/-- rename_material_nodes: rename all nodes in a material to carry the
CloudCreator tag.  The Python None-material guard is not representable
(materials here are non-null); the use_nodes guard is kept. -/
def rename_material_nodes (material : Material) (pfx : String) : Material :=
  if !material.use_nodes then material
  else { material with nodes := material.nodes.map (renameNode pfx) }

/-- The per-node loop body of set_random_mapping_locations: walk the node
list in order, and for every node of type MAPPING draw three uniforms in
[-1000, 1000] for the X, Y, Z components of its Location input. -/
def assignMappingLocs (g : PyRandom) :
    List ShaderNode → List ShaderNode × PyRandom
  | [] => ([], g)
  | n :: rest =>
    if n.ntype == "MAPPING" then
      let u1 := g.uniform (-1000) 1000
      let u2 := u1.2.uniform (-1000) 1000
      let u3 := u2.2.uniform (-1000) 1000
      let r := assignMappingLocs u3.2 rest
      ({ n with inputLocation := ⟨u1.1, u2.1, u3.1⟩ } :: r.1, r.2)
    else
      let r := assignMappingLocs g rest
      (n :: r.1, r.2)

/-- set_random_mapping_locations: reseed the global generator with the
given seed, then assign seeded random offsets to every mapping node.
When use_nodes is off the function returns before reseeding, leaving the
generator untouched. -/
def set_random_mapping_locations (material : Material) (seed : Nat)
    (g : PyRandom) : Material × PyRandom :=
  if !material.use_nodes then (material, g)
  else
    let g0 := PyRandom.seeded seed
    let r := assignMappingLocs g0 material.nodes
    ({ material with nodes := r.1 }, r.2)

/-- setup_cloud_visibility: disable shadow casting on a cloud object. -/
def setup_cloud_visibility (o : SceneObject) : SceneObject :=
  { o with visible_shadow := false }

/-- setup_shadow_plane_visibility: make the shadow plane invisible to
camera rays. -/
def setup_shadow_plane_visibility (o : SceneObject) : SceneObject :=
  { o with visible_camera := false }

/-- bpy.ops.object.transform_apply with scale=True: fold the object
scale into the mesh data and reset the object scale to identity. -/
def transform_apply_scale (o : SceneObject) : SceneObject :=
  { o with
    meshScale := ⟨o.meshScale.x * o.scale.x, o.meshScale.y * o.scale.y,
                  o.meshScale.z * o.scale.z⟩,
    scale := ⟨1, 1, 1⟩ }

/-- The material-processing loop of load_cloud_mesh: for every non-empty
material slot, rename the nodes with the CloudCreator tag and then set
seeded random mapping offsets (which reseeds and advances the shared
global generator). -/
def processMaterials (seed : Nat) (g : PyRandom) :
    List (Option Material) → List (Option Material) × PyRandom
  | [] => ([], g)
  | none :: rest =>
    let r := processMaterials seed g rest
    (none :: r.1, r.2)
  | some m :: rest =>
    let m1 := rename_material_nodes m "CloudCreator"
    let s := set_random_mapping_locations m1 seed g
    let r := processMaterials seed s.2 rest
    (some s.1 :: r.1, r.2)

/-- The canonical display name given to a loaded cloud object. -/
def cloudObjectName (mesh_name : String) : String :=
  if mesh_name == "cloud_layer" then "CloudCreator_Layer"
  else if mesh_name == "cloud_single" then "CloudCreator_Single"
  else if mesh_name == "cloud_sphere" then "CloudCreator_Sphere"
  else "CloudCreator_" ++ mesh_name

/-- Result of load_cloud_mesh: the (obj, error) return pair of the
Python function, together with the final generator state and scene. -/
structure LoadResult where
  obj : Option SceneObject
  error : Option String
  rng : PyRandom
  scene : List SceneObject
deriving Repr

/-- The body of load_cloud_mesh after the loaded object is linked: the
object is renamed, placed at the configured height, rescaled and baked
only for the multiple/cloud_layer combination, shadow-disabled, and its
materials are processed (advancing the shared generator). -/
def prepareCloudObject (props : CloudCreatorProperties)
    (mesh_name : String) (raw : SceneObject) (g : PyRandom) :
    SceneObject × PyRandom :=
  let o1 := { raw with name := cloudObjectName mesh_name }
  let o2 := { o1 with
              location := ⟨o1.location.x, o1.location.y,
                           props.cloud_height⟩ }
  let o3 :=
    if props.multiple && (mesh_name == "cloud_layer") then
      let base_size : ℚ := 10
      let scale_factor := props.cloud_spread / base_size
      transform_apply_scale
        { o2 with scale := ⟨scale_factor, scale_factor, 1⟩ }
    else o2
  let o4 := setup_cloud_visibility o3
  let pm := processMaterials props.seed g o4.materials
  ({ o4 with materials := pm.1 }, pm.2)

/-- load_cloud_mesh: load a cloud mesh from the assets.blend file.
Checks the file, looks the name up among the library objects, links the
loaded object into the scene and configures it (prepareCloudObject). -/
def load_cloud_mesh (props : CloudCreatorProperties) (lib : AssetLibrary)
    (mesh_name : String) (g : PyRandom) (scene : List SceneObject) :
    LoadResult :=
  if !lib.fileExists then
    ⟨none, some ("Assets file not found: " ++ get_assets_path), g, scene⟩
  else if !(lib.objectNames.contains mesh_name) then
    ⟨none,
     some ("Object \x27" ++ mesh_name ++ "\x27 not found in assets.blend"),
     g, scene⟩
  else
    match lib.fetch mesh_name with
    | none => ⟨none, some "Failed to load object", g, scene⟩
    | some raw =>
      let p := prepareCloudObject props mesh_name raw g
      ⟨some p.1, none, p.2, scene ++ [p.1]⟩

/-- Node type enum string of the host for a nodes.new bl idname. -/
def newNodeType (idname : String) : String :=
  if idname == "ShaderNodeOutputMaterial" then "OUTPUT_MATERIAL"
  else if idname == "ShaderNodeBsdfPrincipled" then "BSDF_PRINCIPLED"
  else if idname == "ShaderNodeValToRGB" then "VALTORGB"
  else if idname == "ShaderNodeTexNoise" then "TEX_NOISE"
  else if idname == "ShaderNodeMapping" then "MAPPING"
  else if idname == "ShaderNodeTexCoord" then "TEX_COORD"
  else idname

/-- nodes.new: a fresh node of the given bl idname with host default
inputs (the defaults shown are those of Blender for the fields this
add-on later reads; every field the claims depend on is overwritten
explicitly by the builder). -/
def ShaderNode.new (idname : String) : ShaderNode :=
  { name := idname
    label := ""
    ntype := newNodeType idname
    editorLoc := (0, 0)
    inputLocation := ⟨0, 0, 0⟩
    inputScale := 5
    inputDetail := 2
    inputBaseColor := ⟨4/5, 4/5, 4/5, 1⟩
    rampElements := [⟨0, ⟨0, 0, 0, 1⟩⟩, ⟨1, ⟨1, 1, 1, 1⟩⟩] }

/-- Result of create_cloud_shadow_plane: the plane, the generator state
after the three mapping draws, and the scene with the plane linked. -/
structure PlaneResult where
  plane : SceneObject
  rng : PyRandom
  scene : List SceneObject
deriving Repr

/-- create_cloud_shadow_plane: create the shadow plane (scaled by
shadow_spread and baked, invisible to camera) and build its fixed shader
node graph, with the mapping offsets drawn from the generator freshly
reseeded with the scene seed. -/
def create_cloud_shadow_plane (props : CloudCreatorProperties)
    (_g : PyRandom) (scene : List SceneObject) : PlaneResult :=
  let g0 := PyRandom.seeded props.seed
  let plane_size := props.shadow_spread
  let plane0 : SceneObject :=
    { name := "CloudCreator_Shadow"
      location := ⟨0, 0, props.cloud_height⟩
      scale := ⟨1, 1, 1⟩
      meshScale := ⟨1, 1, 1⟩
      visible_shadow := true
      visible_camera := true
      materials := []
      parent := none
      matrix_parent_inverse := none
      lightData := none }
  let plane1 :=
    transform_apply_scale
      { plane0 with scale := ⟨plane_size, plane_size, 1⟩ }
  let plane2 := setup_shadow_plane_visibility plane1
  let node_output :=
    { ShaderNode.new "ShaderNodeOutputMaterial" with
      editorLoc := (600, 0), name := "CloudCreator_Output" }
  let node_bsdf :=
    { ShaderNode.new "ShaderNodeBsdfPrincipled" with
      editorLoc := (300, 0), name := "CloudCreator_BSDF"
      inputBaseColor := ⟨0, 0, 0, 1⟩ }
  let node_ramp :=
    { ShaderNode.new "ShaderNodeValToRGB" with
      editorLoc := (0, 0), name := "CloudCreator_ColorRamp"
      rampElements := [⟨2/5, ⟨0, 0, 0, 1⟩⟩, ⟨3/5, ⟨1, 1, 1, 1⟩⟩] }
  let node_noise :=
    { ShaderNode.new "ShaderNodeTexNoise" with
      editorLoc := (-200, 0), name := "CloudCreator_Noise"
      inputScale := 1, inputDetail := 5 }
  let (mx, g1) := g0.uniform (-1000) 1000
  let (my, g2) := g1.uniform (-1000) 1000
  let (mz, g3) := g2.uniform (-1000) 1000
  let node_mapping :=
    { ShaderNode.new "ShaderNodeMapping" with
      editorLoc := (-400, 0), name := "CloudCreator_Mapping"
      inputLocation := ⟨mx, my, mz⟩ }
  let node_texcoord :=
    { ShaderNode.new "ShaderNodeTexCoord" with
      editorLoc := (-600, 0), name := "CloudCreator_TexCoord" }
  let mat : Material :=
    { matName := "CloudCreator_ShadowMaterial"
      use_nodes := true
      blend_method := "BLEND"
      nodes := [node_output, node_bsdf, node_ramp, node_noise,
                node_mapping, node_texcoord]
      links :=
        [⟨"CloudCreator_TexCoord", "Generated",
          "CloudCreator_Mapping", "Vector"⟩,
         ⟨"CloudCreator_Mapping", "Vector",
          "CloudCreator_Noise", "Vector"⟩,
         ⟨"CloudCreator_Noise", "Fac",
          "CloudCreator_ColorRamp", "Fac"⟩,
         ⟨"CloudCreator_ColorRamp", "Color",
          "CloudCreator_BSDF", "Alpha"⟩,
         ⟨"CloudCreator_BSDF", "BSDF",
          "CloudCreator_Output", "Surface"⟩] }
  let plane3 := { plane2 with materials := plane2.materials ++ [some mat] }
  ⟨plane3, g3, scene ++ [plane3]⟩

/-- Result of create_cloud_light: the light and the scene with it. -/
structure LightResult where
  light : SceneObject
  scene : List SceneObject
deriving Repr

/-- create_cloud_light: create an area light 0.5 above the cloud height,
configure it (square, size = shadow_spread, energy 10000, 20 degree
spread) and parent it to the shadow plane with the inverse of the
world matrix of the plane as parent-inverse correction. -/
def create_cloud_light (props : CloudCreatorProperties)
    (shadow_plane : SceneObject) (scene : List SceneObject) :
    LightResult :=
  let light_height := props.cloud_height + 1/2
  let light0 : SceneObject :=
    { name := "CloudCreator_Light"
      location := ⟨0, 0, light_height⟩
      scale := ⟨1, 1, 1⟩
      meshScale := ⟨1, 1, 1⟩
      visible_shadow := true
      visible_camera := true
      materials := []
      parent := none
      matrix_parent_inverse := none
      lightData := some
        { dataName := "CloudCreator_AreaLight"
          energy := 10000
          shape := "SQUARE"
          size := props.shadow_spread
          spread := mathRadians 20 } }
  let light1 :=
    { light0 with
      parent := some shadow_plane.name
      matrix_parent_inverse :=
        some (Mat.inverse shadow_plane.matrixWorld) }
  ⟨light1, scene ++ [light1]⟩

/-- A self.report message: severity level and text. -/
structure Report where
  level : String
  message : String
deriving Repr, DecidableEq

/-- Result of the execute phase: final scene, reports, generator state
and the operator return status. -/
structure ExecResult where
  scene : List SceneObject
  reports : List Report
  rng : PyRandom
  status : String
deriving Repr

/-- The mesh identifier the execute phase resolves from the settings. -/
def meshNameOf (props : CloudCreatorProperties) : String :=
  if props.multiple then "cloud_layer"
  else "cloud_" ++ props.cloud_type.enumStr

/-- The cloud-loading stage of execute: when add_cloud is on, resolve
the mesh identifier, run the loader and report its outcome (an error as
a non-fatal warning, success as an info message); returns the scene,
the reports so far and the generator state. -/
def executeCloudStep (props : CloudCreatorProperties) (lib : AssetLibrary)
    (g : PyRandom) (scene : List SceneObject) :
    List SceneObject × List Report × PyRandom :=
  if props.add_cloud then
    let lr := load_cloud_mesh props lib (meshNameOf props) g scene
    match lr.error, lr.obj with
    | some e, _ =>
      (lr.scene, [⟨"WARNING", "CloudCreator: " ++ e⟩], lr.rng)
    | none, some o =>
      (lr.scene,
       [⟨"INFO", "CloudCreator: Loaded \x27" ++ o.name ++ "\x27"⟩],
       lr.rng)
    | none, none => (lr.scene, [], lr.rng)
  else (scene, [], g)

/-- CLOUDCREATOR_OT_create.execute: load the cloud mesh when enabled
(reporting errors as warnings), then create the shadow plane when
enabled and, under it, the light when enabled; always returns FINISHED. -/
def execute (props : CloudCreatorProperties) (lib : AssetLibrary)
    (g : PyRandom) (scene : List SceneObject) : ExecResult :=
  let c := executeCloudStep props lib g scene
  if props.cloud_shadows then
    let pr := create_cloud_shadow_plane props c.2.2 c.1
    let reports2 := c.2.1 ++
      [⟨"INFO", "CloudCreator: Created shadow plane \x27" ++
        pr.plane.name ++ "\x27"⟩]
    if props.add_light then
      let lr := create_cloud_light props pr.plane pr.scene
      ⟨lr.scene,
       reports2 ++
         [⟨"INFO", "CloudCreator: Created light \x27" ++
           lr.light.name ++ "\x27"⟩],
       pr.rng, "FINISHED"⟩
    else ⟨pr.scene, reports2, pr.rng, "FINISHED"⟩
  else ⟨c.1, c.2.1, c.2.2, "FINISHED"⟩

/-- The safety-confirmation guard of CLOUDCREATOR_OT_create.invoke. -/
def confirmGuard (props : CloudCreatorProperties) : Bool :=
  props.add_cloud && props.multiple && decide (props.cloud_spread > 10)

/-- Outcome of the invoke phase: either the blocking confirmation dialog
is presented, or execute ran immediately. -/
inductive InvokeResult
  | confirmPending
  | ran (r : ExecResult)

/-- CLOUDCREATOR_OT_create.invoke: present the confirmation dialog for
the slow add_cloud/multiple/large-spread configuration, else execute. -/
def invoke (props : CloudCreatorProperties) (lib : AssetLibrary)
    (g : PyRandom) (scene : List SceneObject) : InvokeResult :=
  if confirmGuard props then .confirmPending
  else .ran (execute props lib g scene)

/-- Number of objects of a scene carrying a given name. -/
def countName (scene : List SceneObject) (n : String) : Nat :=
  (scene.filter fun o => o.name == n).length

/-- Location input of the first mapping node of a material, if any. -/
def firstMappingLoc (m : Material) : Option Vec3 :=
  (m.nodes.find? fun n => n.ntype == "MAPPING").map
    fun n => n.inputLocation

/-- Location input of the first mapping node of the first material of an
object, if any. -/
def objFirstMappingLoc (o : SceneObject) : Option Vec3 :=
  match o.materials with
  | some m :: _ => firstMappingLoc m
  | _ => none

/-- The values of three consecutive uniform(-1000, 1000) draws. -/
def uniformTriple (g : PyRandom) : Vec3 :=
  let (x, g1) := g.uniform (-1000) 1000
  let (y, g2) := g1.uniform (-1000) 1000
  let (z, _) := g2.uniform (-1000) 1000
  ⟨x, y, z⟩

/-- The first three uniform(-1000, 1000) draws after reseeding. -/
def threeDraws (seed : Nat) : Vec3 :=
  uniformTriple (PyRandom.seeded seed)

/-- A settings record with add_cloud and multiple on, used to evaluate
the confirmation guard at concrete spread values. -/
def guardProps (spread : ℚ) : CloudCreatorProperties :=
  { add_cloud := true
    seed := 0
    multiple := true
    cloud_type := .single
    cloud_spread := spread
    shadow_spread := 100
    cloud_height := 10
    cloud_shadows := true
    add_light := false }

end CloudCreator

namespace CloudCreator

/-- Helper: a list is a Boolean prefix of itself followed by anything. -/
theorem isPrefixOf_append_self {α : Type} [DecidableEq α]
    (l x : List α) : l.isPrefixOf (l ++ x) = true := by
  induction l with
  | nil => simp [List.isPrefixOf]
  | cons a t ih => simp [List.isPrefixOf, ih]

/-- The tagged name produced by renameNode always starts with the tag. -/
theorem pyStartswith_tagged (pfx s : String) :
    pyStartswith (pfx ++ "_" ++ s) pfx = true := by
  unfold pyStartswith
  have h : (pfx ++ "_" ++ s).data = pfx.data ++ ("_" ++ s).data := by
    simp [String.data_append]
  rw [h]
  exact isPrefixOf_append_self _ _

/-- renameNode leaves an already-renamed node unchanged. -/
theorem renameNode_idem (pfx : String) (n : ShaderNode) :
    renameNode pfx (renameNode pfx n) = renameNode pfx n := by
  unfold renameNode
  by_cases h : pyStartswith n.name pfx
  · simp [h]
  · simp [h, pyStartswith_tagged]

/-- C3: material node renaming is idempotent: a second application of
rename_material_nodes changes nothing (in particular the node-name set
is the same), because a node is prefixed with the tag only if its name
does not already start with the tag. -/
theorem rename_material_nodes_idempotent (m : Material) (pfx : String) :
    rename_material_nodes (rename_material_nodes m pfx) pfx =
      rename_material_nodes m pfx := by
  unfold rename_material_nodes
  by_cases h : m.use_nodes
  · simp [h, List.map_map, Function.comp, renameNode_idem]
  · simp [h]

/-- C1: the invoke phase presents the blocking confirmation exactly when
add_cloud, multiple and cloud_spread > 10 all hold, and in every other
combination of settings it runs execute directly; with add_cloud and
multiple on, the guard at spread 5, 10, 10.0001, 50 evaluates to false,
false, true, true. -/
theorem invoke_confirm_guard (props : CloudCreatorProperties)
    (lib : AssetLibrary) (g : PyRandom) (scene : List SceneObject) :
    (invoke props lib g scene =
       if confirmGuard props then InvokeResult.confirmPending
       else InvokeResult.ran (execute props lib g scene)) ∧
    (invoke props lib g scene = InvokeResult.confirmPending ↔
       (props.add_cloud = true ∧ props.multiple = true ∧
        props.cloud_spread > 10)) ∧
    confirmGuard (guardProps 5) = false ∧
    confirmGuard (guardProps 10) = false ∧
    confirmGuard (guardProps (100001/10000)) = true ∧
    confirmGuard (guardProps 50) = true := by
  constructor
  · rfl
  constructor
  · unfold invoke confirmGuard
    by_cases h1 : props.add_cloud <;> by_cases h2 : props.multiple <;>
      by_cases h3 : props.cloud_spread > 10 <;> simp [h1, h2, h3]
  refine ⟨?_, ?_, ?_, ?_⟩ <;> simp [confirmGuard, guardProps] <;> norm_num

/-- Helper: the loader result when the file exists, the name is listed
and the host delivers an object. -/
theorem load_cloud_mesh_found (props : CloudCreatorProperties)
    (lib : AssetLibrary) (mesh_name : String) (g : PyRandom)
    (scene : List SceneObject) (raw : SceneObject)
    (hf : lib.fileExists = true)
    (hn : lib.objectNames.contains mesh_name = true)
    (hr : lib.fetch mesh_name = some raw) :
    load_cloud_mesh props lib mesh_name g scene =
      ⟨some (prepareCloudObject props mesh_name raw g).1, none,
       (prepareCloudObject props mesh_name raw g).2,
       scene ++ [(prepareCloudObject props mesh_name raw g).1]⟩ := by
  have hn' : mesh_name ∈ lib.objectNames := by simpa using hn
  simp [load_cloud_mesh, hf, hn', hr]

/-- C2: for the layer variant (multiple on, mesh name cloud_layer) the
loader sets the horizontal scale to cloud_spread / 10.0 on X and Y with
Z scale 1, then applies it destructively, so the returned object stores
scale (1, 1, 1) and its mesh data absorbed the factors; for the single
and sphere variants the scale and mesh data are left untouched. -/
theorem load_layer_scale (props : CloudCreatorProperties)
    (lib : AssetLibrary) (g : PyRandom) (scene : List SceneObject)
    (raw : SceneObject) (hf : lib.fileExists = true) :
    (props.multiple = true →
     lib.objectNames.contains "cloud_layer" = true →
     lib.fetch "cloud_layer" = some raw →
     ∃ o, (load_cloud_mesh props lib "cloud_layer" g scene).obj = some o ∧
       o.scale = ⟨1, 1, 1⟩ ∧
       o.meshScale = ⟨raw.meshScale.x * (props.cloud_spread / 10),
                      raw.meshScale.y * (props.cloud_spread / 10),
                      raw.meshScale.z * 1⟩) ∧
    (∀ mesh_name : String,
     (mesh_name = "cloud_single" ∨ mesh_name = "cloud_sphere") →
     lib.objectNames.contains mesh_name = true →
     lib.fetch mesh_name = some raw →
     ∃ o, (load_cloud_mesh props lib mesh_name g scene).obj = some o ∧
       o.scale = raw.scale ∧ o.meshScale = raw.meshScale) := by
  constructor
  · intro hm hn hr
    rw [load_cloud_mesh_found props lib "cloud_layer" g scene raw hf hn hr]
    refine ⟨(prepareCloudObject props "cloud_layer" raw g).1, rfl, ?_, ?_⟩ <;>
      simp [prepareCloudObject, hm, transform_apply_scale,
            setup_cloud_visibility]
  · rintro mesh_name (h | h) hn hr <;> subst h <;>
      rw [load_cloud_mesh_found _ _ _ g scene raw hf hn hr] <;>
      exact ⟨_, rfl, by simp [prepareCloudObject, setup_cloud_visibility],
             by simp [prepareCloudObject, setup_cloud_visibility]⟩

/-- A shader node with mapping type and an untagged name, used as
concrete input. -/
def tMapNode : ShaderNode :=
  { ShaderNode.new "ShaderNodeMapping" with name := "Mapping" }

/-- A concrete cloud material holding the mapping node. -/
def tMat : Material :=
  { matName := "CloudMaterial"
    use_nodes := true
    blend_method := "OPAQUE"
    nodes := [tMapNode]
    links := [] }

/-- A raw library object used as a concrete loader input. -/
def tRawCloud : SceneObject :=
  { name := "raw"
    location := ⟨0, 0, 0⟩
    scale := ⟨5, 6, 7⟩
    meshScale := ⟨2, 3, 4⟩
    visible_shadow := true
    visible_camera := true
    materials := [some tMat]
    parent := none
    matrix_parent_inverse := none
    lightData := none }

/-- A concrete asset library holding the three cloud objects. -/
def tLib : AssetLibrary :=
  { fileExists := true
    objectNames := ["cloud_layer", "cloud_single", "cloud_sphere"]
    fetch := fun n => if n == "cloud_layer" || n == "cloud_single" ||
      n == "cloud_sphere" then some tRawCloud else none }

/-- Witness for C2 at a concrete library, layer settings and a sphere
load. -/
theorem load_layer_scale_witness :
    (∃ o, (load_cloud_mesh (guardProps 100) tLib "cloud_layer"
            (PyRandom.seeded 0) []).obj = some o ∧
       o.scale = ⟨1, 1, 1⟩ ∧
       o.meshScale = ⟨2 * ((100 : ℚ) / 10), 3 * ((100 : ℚ) / 10),
                      (4 : ℚ) * 1⟩) ∧
    (∃ o, (load_cloud_mesh (guardProps 100) tLib "cloud_sphere"
            (PyRandom.seeded 0) []).obj = some o ∧
       o.scale = tRawCloud.scale ∧ o.meshScale = tRawCloud.meshScale) :=
  ⟨(load_layer_scale (guardProps 100) tLib (PyRandom.seeded 0) []
      tRawCloud rfl).1 rfl rfl rfl,
   (load_layer_scale (guardProps 100) tLib (PyRandom.seeded 0) []
      tRawCloud rfl).2 "cloud_sphere" (Or.inr rfl) rfl rfl⟩

/-- C5: when the asset file is missing, or the requested identifier is
not among the library objects, the loader returns no object and a
non-null descriptive error string, and the scene is left unchanged. -/
theorem load_missing_asset (props : CloudCreatorProperties)
    (lib : AssetLibrary) (mesh_name : String) (g : PyRandom)
    (scene : List SceneObject) :
    (lib.fileExists = false →
       (load_cloud_mesh props lib mesh_name g scene).obj = none ∧
       (load_cloud_mesh props lib mesh_name g scene).error =
         some ("Assets file not found: " ++ get_assets_path) ∧
       (load_cloud_mesh props lib mesh_name g scene).scene = scene) ∧
    (lib.fileExists = true →
     lib.objectNames.contains mesh_name = false →
       (load_cloud_mesh props lib mesh_name g scene).obj = none ∧
       (load_cloud_mesh props lib mesh_name g scene).error =
         some ("Object \x27" ++ mesh_name ++
               "\x27 not found in assets.blend") ∧
       (load_cloud_mesh props lib mesh_name g scene).scene = scene) := by
  constructor
  · intro hf
    refine ⟨?_, ?_, ?_⟩ <;> simp [load_cloud_mesh, hf]
  · intro hf hn
    have hn' : mesh_name ∉ lib.objectNames := by simpa using hn
    refine ⟨?_, ?_, ?_⟩ <;> simp [load_cloud_mesh, hf, hn']

/-- A concrete asset library whose file is missing. -/
def tLibMissing : AssetLibrary :=
  { fileExists := false
    objectNames := []
    fetch := fun _ => none }

/-- Witness for C5: the missing-file library and a name absent from the
present library both yield an error, no object, and an untouched scene. -/
theorem load_missing_asset_witness :
    ((load_cloud_mesh (guardProps 100) tLibMissing "cloud_layer"
        (PyRandom.seeded 0) [tRawCloud]).obj = none ∧
     (load_cloud_mesh (guardProps 100) tLibMissing "cloud_layer"
        (PyRandom.seeded 0) [tRawCloud]).error =
       some ("Assets file not found: " ++ get_assets_path) ∧
     (load_cloud_mesh (guardProps 100) tLibMissing "cloud_layer"
        (PyRandom.seeded 0) [tRawCloud]).scene = [tRawCloud]) ∧
    ((load_cloud_mesh (guardProps 100) tLib "cloud_cube"
        (PyRandom.seeded 0) [tRawCloud]).obj = none ∧
     (load_cloud_mesh (guardProps 100) tLib "cloud_cube"
        (PyRandom.seeded 0) [tRawCloud]).error =
       some ("Object \x27cloud_cube\x27 not found in assets.blend") ∧
     (load_cloud_mesh (guardProps 100) tLib "cloud_cube"
        (PyRandom.seeded 0) [tRawCloud]).scene = [tRawCloud]) :=
  ⟨(load_missing_asset (guardProps 100) tLibMissing "cloud_layer"
      (PyRandom.seeded 0) [tRawCloud]).1 rfl,
   (load_missing_asset (guardProps 100) tLib "cloud_cube"
      (PyRandom.seeded 0) [tRawCloud]).2 rfl rfl⟩

/-- The offsets assigned by the randomizer lie in [-1000, 1000]. -/
def inRange1000 (v : Vec3) : Prop :=
  -1000 ≤ v.x ∧ v.x ≤ 1000 ∧ -1000 ≤ v.y ∧ v.y ≤ 1000 ∧
  -1000 ≤ v.z ∧ v.z ≤ 1000

/-- A single uniform(-1000, 1000) draw lies in [-1000, 1000]. -/
theorem uniform_mem (g : PyRandom) :
    -1000 ≤ (g.uniform (-1000) 1000).1 ∧
    (g.uniform (-1000) 1000).1 ≤ 1000 := by
  unfold PyRandom.uniform
  have h0 : (0 : ℚ) ≤ (randBits g.seedVal g.idx : ℚ) / 4294967296 := by
    positivity
  have h1 : (randBits g.seedVal g.idx : ℚ) / 4294967296 ≤ 1 := by
    rw [div_le_one (by norm_num)]
    have h2 : randBits g.seedVal g.idx < 4294967296 := by
      unfold randBits
      exact Nat.mod_lt _ (by norm_num)
    exact_mod_cast h2.le
  constructor <;> simp <;> nlinarith

/-- Every mapping node of the randomized node list carries offsets in
[-1000, 1000]. -/
theorem assignMappingLocs_range (ns : List ShaderNode) (g : PyRandom) :
    ∀ n ∈ (assignMappingLocs g ns).1, n.ntype = "MAPPING" →
      inRange1000 n.inputLocation := by
  induction ns generalizing g with
  | nil => intro n hn; simp [assignMappingLocs] at hn
  | cons a rest ih =>
    intro n hn hmap
    by_cases ha : (a.ntype == "MAPPING") = true
    · simp only [assignMappingLocs, ha, if_pos] at hn
      rcases List.mem_cons.mp hn with h | h
      · subst h
        exact ⟨(uniform_mem g).1, (uniform_mem g).2,
               (uniform_mem _).1, (uniform_mem _).2,
               (uniform_mem _).1, (uniform_mem _).2⟩
      · exact ih _ n h hmap
    · simp only [assignMappingLocs, ha, if_neg, Bool.false_eq_true] at hn
      rcases List.mem_cons.mp hn with h | h
      · subst h
        simp only [beq_iff_eq] at ha
        exact absurd hmap ha
      · exact ih _ n h hmap

/-- Randomizing a node list that contains a mapping node gives its first
mapping node the first three draws of the generator. -/
theorem assignMappingLocs_first (ns : List ShaderNode) (g : PyRandom)
    (h : (ns.any fun n => n.ntype == "MAPPING") = true) :
    ((assignMappingLocs g ns).1.find? fun n => n.ntype == "MAPPING").map
        (fun n => n.inputLocation) = some (uniformTriple g) := by
  induction ns generalizing g with
  | nil => simp at h
  | cons a rest ih =>
    by_cases ha : (a.ntype == "MAPPING") = true
    · simp only [assignMappingLocs, ha, if_pos]
      simp [List.find?, ha, uniformTriple]
    · have h1 : (rest.any fun n => n.ntype == "MAPPING") = true := by
        rcases List.any_eq_true.mp h with ⟨x, hx, hpx⟩
        rcases List.mem_cons.mp hx with hxa | hxr
        · subst hxa; exact absurd hpx (by simpa using ha)
        · exact List.any_eq_true.mpr ⟨x, hxr, hpx⟩
      have ha' : (a.ntype == "MAPPING") = false := by simpa using ha
      simp only [assignMappingLocs, ha', Bool.false_eq_true, if_false]
      simp only [List.find?, ha']
      exact ih _ h1

/-- C4: set_random_mapping_locations is deterministic in the seed: its
output material does not depend on the incoming state of the shared
global generator (the function reseeds it), every mapping node receives
offsets drawn from [-1000, 1000], and different seeds give different
offsets (witnessed at seeds 0 and 1 on a concrete material). -/
theorem set_random_mapping_deterministic (m : Material) (seed : Nat)
    (g1 g2 : PyRandom) (hm : m.use_nodes = true) :
    (set_random_mapping_locations m seed g1).1 =
      (set_random_mapping_locations m seed g2).1 ∧
    (∀ n ∈ (set_random_mapping_locations m seed g1).1.nodes,
       n.ntype = "MAPPING" → inRange1000 n.inputLocation) ∧
    (set_random_mapping_locations tMat 0 g1).1 ≠
      (set_random_mapping_locations tMat 1 g1).1 := by
  refine ⟨by simp [set_random_mapping_locations, hm], ?_, ?_⟩
  · intro n hn
    simp only [set_random_mapping_locations, hm, Bool.not_true,
               Bool.false_eq_true, if_false] at hn
    exact assignMappingLocs_range m.nodes (PyRandom.seeded seed) n hn
  · simp [set_random_mapping_locations, assignMappingLocs, tMat, tMapNode,
          ShaderNode.new, newNodeType, PyRandom.uniform, PyRandom.seeded,
          Material.mk.injEq, ShaderNode.mk.injEq, Vec3.mk.injEq]
    norm_num [randBits]

/-- Witness for C4 at a concrete material, seed and two generator
states. -/
theorem set_random_mapping_deterministic_witness :
    (set_random_mapping_locations tMat 5 (PyRandom.seeded 7)).1 =
      (set_random_mapping_locations tMat 5 (PyRandom.seeded 9)).1 :=
  (set_random_mapping_deterministic tMat 5 (PyRandom.seeded 7)
    (PyRandom.seeded 9) rfl).1

/-- C10: both randomization call sites reseed the one shared global
generator with the scene seed immediately before drawing, so the three
offsets of the mapping node of the shadow plane equal the three offsets
assigned to the first mapping node of any cloud material randomized with
that seed: both equal the first three draws after reseeding. -/
theorem shadow_and_material_offsets_agree (props : CloudCreatorProperties)
    (m : Material) (g g' : PyRandom) (scene : List SceneObject)
    (hm : m.use_nodes = true)
    (hmap : (m.nodes.any fun n => n.ntype == "MAPPING") = true) :
    objFirstMappingLoc (create_cloud_shadow_plane props g scene).plane =
      some (threeDraws props.seed) ∧
    firstMappingLoc (set_random_mapping_locations m props.seed g').1 =
      some (threeDraws props.seed) := by
  constructor
  · rfl
  · simp only [set_random_mapping_locations, hm, Bool.not_true,
               Bool.false_eq_true, if_false]
    exact assignMappingLocs_first m.nodes (PyRandom.seeded props.seed) hmap

/-- Witness for C10: concrete settings, generator states and material. -/
theorem shadow_and_material_offsets_agree_witness :
    objFirstMappingLoc (create_cloud_shadow_plane (guardProps 100)
        (PyRandom.seeded 3) []).plane = some (threeDraws 0) ∧
    firstMappingLoc (set_random_mapping_locations tMat 0
        (PyRandom.seeded 4)).1 = some (threeDraws 0) :=
  shadow_and_material_offsets_agree (guardProps 100) tMat
    (PyRandom.seeded 3) (PyRandom.seeded 4) [] rfl rfl

/-- C6 counterexample: the shader graph of the shadow-plane builder holds six
nodes (the material-output node is a created node of the tree like the
other five), so the graph is not five-node. -/
theorem shadow_plane_graph_not_five_nodes :
    ((create_cloud_shadow_plane (guardProps 100) (PyRandom.seeded 0)
        []).plane.materials.map fun om =>
          om.map fun m => m.nodes.length) = [some 6] ∧ 6 ≠ 5 :=
  ⟨rfl, by decide⟩

/-- C6 (amended: six nodes, five links): the shadow-plane builder always
attaches exactly one material, alpha-blended, whose graph holds exactly
six nodes — texture coordinate, mapping, noise texture (scale 1, detail
5), color ramp (black stop at 0.4, white stop at 0.6), principled BSDF
with black base color, and material output — connected by exactly the
five links texcoord.Generated to mapping.Vector, mapping.Vector to
noise.Vector, noise.Fac to ramp.Fac, ramp.Color to bsdf.Alpha, and
bsdf.BSDF to output.Surface. -/
theorem shadow_plane_graph (props : CloudCreatorProperties)
    (g : PyRandom) (scene : List SceneObject) :
    ∃ mat,
      (create_cloud_shadow_plane props g scene).plane.materials =
        [some mat] ∧
      mat.blend_method = "BLEND" ∧
      mat.use_nodes = true ∧
      (mat.nodes.map fun n => (n.name, n.ntype)) =
        [("CloudCreator_Output", "OUTPUT_MATERIAL"),
         ("CloudCreator_BSDF", "BSDF_PRINCIPLED"),
         ("CloudCreator_ColorRamp", "VALTORGB"),
         ("CloudCreator_Noise", "TEX_NOISE"),
         ("CloudCreator_Mapping", "MAPPING"),
         ("CloudCreator_TexCoord", "TEX_COORD")] ∧
      (mat.nodes[1]?.map fun n => n.inputBaseColor) =
        some ⟨0, 0, 0, 1⟩ ∧
      (mat.nodes[2]?.map fun n => n.rampElements) =
        some [⟨2/5, ⟨0, 0, 0, 1⟩⟩, ⟨3/5, ⟨1, 1, 1, 1⟩⟩] ∧
      (mat.nodes[3]?.map fun n => n.inputScale) = some 1 ∧
      (mat.nodes[3]?.map fun n => n.inputDetail) = some 5 ∧
      mat.links =
        [⟨"CloudCreator_TexCoord", "Generated",
          "CloudCreator_Mapping", "Vector"⟩,
         ⟨"CloudCreator_Mapping", "Vector",
          "CloudCreator_Noise", "Vector"⟩,
         ⟨"CloudCreator_Noise", "Fac",
          "CloudCreator_ColorRamp", "Fac"⟩,
         ⟨"CloudCreator_ColorRamp", "Color",
          "CloudCreator_BSDF", "Alpha"⟩,
         ⟨"CloudCreator_BSDF", "BSDF",
          "CloudCreator_Output", "Surface"⟩] :=
  ⟨_, rfl, rfl, rfl, rfl, rfl, rfl, rfl, rfl, rfl⟩

/-- C7: create_cloud_light creates exactly one area light 0.5 units
above the cloud height (hence 0.5 above the plane, which sits at the
cloud height), square, sized by shadow_spread, energy 10000, 20-degree
beam spread, parented to the shadow plane with the inverse of the
world matrix of the plane as parent-inverse correction. -/
theorem create_cloud_light_spec (props : CloudCreatorProperties)
    (plane : SceneObject) (scene : List SceneObject) :
    (create_cloud_light props plane scene).light.location =
      ⟨0, 0, props.cloud_height + 1/2⟩ ∧
    (create_cloud_light props plane scene).light.lightData =
      some ⟨"CloudCreator_AreaLight", 10000, "SQUARE",
            props.shadow_spread, mathRadians 20⟩ ∧
    (create_cloud_light props plane scene).light.name =
      "CloudCreator_Light" ∧
    (create_cloud_light props plane scene).light.parent =
      some plane.name ∧
    (create_cloud_light props plane scene).light.matrix_parent_inverse =
      some (Mat.inverse plane.matrixWorld) ∧
    (create_cloud_light props plane scene).scene =
      scene ++ [(create_cloud_light props plane scene).light] ∧
    (plane.location.z = props.cloud_height →
      (create_cloud_light props plane scene).light.location.z =
        plane.location.z + 1/2) := by
  refine ⟨rfl, rfl, rfl, rfl, rfl, rfl, ?_⟩
  intro h
  simp [create_cloud_light, h]

/-- Witness for C7: the light sits 0.5 above the freshly created shadow
plane at concrete settings. -/
theorem create_cloud_light_spec_witness :
    (create_cloud_light (guardProps 100)
        (create_cloud_shadow_plane (guardProps 100) (PyRandom.seeded 0)
          []).plane []).light.location.z =
      (create_cloud_shadow_plane (guardProps 100) (PyRandom.seeded 0)
        []).plane.location.z + 1/2 :=
  (create_cloud_light_spec (guardProps 100)
    (create_cloud_shadow_plane (guardProps 100) (PyRandom.seeded 0)
      []).plane []).2.2.2.2.2.2 rfl

/-- Helper: appending one object changes a name count by one exactly
when the names agree. -/
theorem countName_append (s : List SceneObject) (o : SceneObject)
    (n : String) :
    countName (s ++ [o]) n =
      countName s n + (if o.name = n then 1 else 0) := by
  simp only [countName, List.filter_append, List.length_append]
  by_cases h : o.name = n <;> simp [h]

/-- Helper: appending two objects changes a name count by the matches
among the two names. -/
theorem countName_pair (s : List SceneObject) (p l : SceneObject)
    (n : String) :
    countName (s ++ [p, l]) n =
      countName s n + (if p.name = n then 1 else 0) +
        (if l.name = n then 1 else 0) := by
  simp only [countName, List.filter_append, List.length_append]
  by_cases h1 : p.name = n <;> by_cases h2 : l.name = n <;>
    simp [h1, h2, List.filter_cons]

/-- Helper: the prepared cloud object carries the canonical name. -/
theorem prepareCloudObject_name (props : CloudCreatorProperties)
    (mesh_name : String) (raw : SceneObject) (g : PyRandom) :
    (prepareCloudObject props mesh_name raw g).1.name =
      cloudObjectName mesh_name := by
  by_cases hc : (props.multiple && (mesh_name == "cloud_layer")) = true <;>
    simp [prepareCloudObject, hc, setup_cloud_visibility,
          transform_apply_scale]

/-- Helper: loading never changes the count of names other than the
canonical cloud name. -/
theorem load_countName (props : CloudCreatorProperties)
    (lib : AssetLibrary) (mesh_name : String) (g : PyRandom)
    (scene : List SceneObject) (n : String)
    (hn : cloudObjectName mesh_name ≠ n) :
    countName (load_cloud_mesh props lib mesh_name g scene).scene n =
      countName scene n := by
  unfold load_cloud_mesh
  by_cases hf : lib.fileExists
  case neg => simp [hf]
  case pos =>
    by_cases hc : lib.objectNames.contains mesh_name = true
    case neg =>
      have hc' : mesh_name ∉ lib.objectNames := by simpa using hc
      simp [hf, hc']
    case pos =>
      have hc' : mesh_name ∈ lib.objectNames := by simpa using hc
      cases hfetch : lib.fetch mesh_name with
      | none => simp [hf, hc', hfetch]
      | some raw =>
        simp [hf, hc', hfetch, countName_append, prepareCloudObject_name,
              hn]

/-- Helper: the canonical cloud object name resolved by execute is never
the shadow-plane name nor the light name. -/
theorem cloudObjectName_ne (props : CloudCreatorProperties) :
    cloudObjectName (meshNameOf props) ≠ "CloudCreator_Shadow" ∧
    cloudObjectName (meshNameOf props) ≠ "CloudCreator_Light" := by
  cases hm : props.multiple <;> cases ht : props.cloud_type <;>
    simp [meshNameOf, cloudObjectName, CloudType.enumStr, hm, ht]

/-- Helper: the cloud stage never changes the count of names other than
the canonical cloud name. -/
theorem executeCloudStep_countName (props : CloudCreatorProperties)
    (lib : AssetLibrary) (g : PyRandom) (scene : List SceneObject)
    (n : String) (hn : cloudObjectName (meshNameOf props) ≠ n) :
    countName (executeCloudStep props lib g scene).1 n =
      countName scene n := by
  unfold executeCloudStep
  by_cases ha : props.add_cloud
  case neg => simp [ha]
  case pos =>
    have hl := load_countName props lib (meshNameOf props) g scene n hn
    cases he : (load_cloud_mesh props lib (meshNameOf props) g
        scene).error with
    | some e => simpa [ha, he] using hl
    | none =>
      cases ho : (load_cloud_mesh props lib (meshNameOf props) g
          scene).obj with
      | some o => simpa [ha, he, ho] using hl
      | none => simpa [ha, he, ho] using hl

/-- Helper: the plane builder links exactly the new plane. -/
theorem create_cloud_shadow_plane_scene (props : CloudCreatorProperties)
    (g : PyRandom) (s : List SceneObject) :
    (create_cloud_shadow_plane props g s).scene =
      s ++ [(create_cloud_shadow_plane props g s).plane] := rfl

/-- Helper: the created plane carries the canonical shadow name. -/
theorem create_cloud_shadow_plane_name (props : CloudCreatorProperties)
    (g : PyRandom) (s : List SceneObject) :
    (create_cloud_shadow_plane props g s).plane.name =
      "CloudCreator_Shadow" := rfl

/-- Helper: the light builder links exactly the new light. -/
theorem create_cloud_light_scene (props : CloudCreatorProperties)
    (p : SceneObject) (s : List SceneObject) :
    (create_cloud_light props p s).scene =
      s ++ [(create_cloud_light props p s).light] := rfl

/-- Helper: the created light carries the canonical light name. -/
theorem create_cloud_light_name (props : CloudCreatorProperties)
    (p : SceneObject) (s : List SceneObject) :
    (create_cloud_light props p s).light.name =
      "CloudCreator_Light" := rfl

/-- Helper: execute adds one shadow plane exactly when cloud_shadows is
on, and one light exactly when cloud_shadows and add_light are both
on. -/
theorem execute_countName (props : CloudCreatorProperties)
    (lib : AssetLibrary) (g : PyRandom) (scene : List SceneObject) :
    countName (execute props lib g scene).scene "CloudCreator_Shadow" =
      countName scene "CloudCreator_Shadow" +
        (if props.cloud_shadows then 1 else 0) ∧
    countName (execute props lib g scene).scene "CloudCreator_Light" =
      countName scene "CloudCreator_Light" +
        (if props.cloud_shadows && props.add_light then 1 else 0) := by
  have hS := executeCloudStep_countName props lib g scene
    "CloudCreator_Shadow" (cloudObjectName_ne props).1
  have hL := executeCloudStep_countName props lib g scene
    "CloudCreator_Light" (cloudObjectName_ne props).2
  unfold execute
  by_cases hs : props.cloud_shadows
  case neg => simp [hs, hS, hL]
  case pos =>
    by_cases hl : props.add_light
    case neg =>
      simp [hs, hl, create_cloud_shadow_plane_scene, countName_append,
            create_cloud_shadow_plane_name, hS, hL]
    case pos =>
      simp [hs, hl, create_cloud_light_scene, countName_append,
            countName_pair, create_cloud_light_name,
            create_cloud_shadow_plane_scene,
            create_cloud_shadow_plane_name, hS, hL]

/-- The settings of the end-to-end scenario: seed 42, single sphere
cloud, shadows and light enabled. -/
def tProps42 : CloudCreatorProperties :=
  { add_cloud := true
    seed := 42
    multiple := false
    cloud_type := .sphere
    cloud_spread := 100
    shadow_spread := 100
    cloud_height := 10
    cloud_shadows := true
    add_light := true }

/-- The same settings with cloud shadows disabled. -/
def tProps42NoShadows : CloudCreatorProperties :=
  { tProps42 with cloud_shadows := false }

/-- C8: execute creates the shadow plane exactly when cloud_shadows is
on and the light exactly when cloud_shadows and add_light are both on;
the concrete run with seed 42, a single sphere cloud, shadows and light
on produces exactly one sphere cloud object, one shadow plane and one
light parented to the plane, and with shadows off only the cloud object
appears although add_light stays on. -/
theorem execute_objects (props : CloudCreatorProperties)
    (lib : AssetLibrary) (g : PyRandom) (scene : List SceneObject) :
    (countName (execute props lib g scene).scene "CloudCreator_Shadow" =
       countName scene "CloudCreator_Shadow" +
         (if props.cloud_shadows then 1 else 0)) ∧
    (countName (execute props lib g scene).scene "CloudCreator_Light" =
       countName scene "CloudCreator_Light" +
         (if props.cloud_shadows && props.add_light then 1 else 0)) ∧
    ((execute tProps42 tLib (PyRandom.seeded 0) []).scene.map
        fun o => o.name) =
      ["CloudCreator_Sphere", "CloudCreator_Shadow",
       "CloudCreator_Light"] ∧
    ((execute tProps42 tLib (PyRandom.seeded 0) []).scene.map
        fun o => o.lightData.isSome) = [false, false, true] ∧
    ((execute tProps42 tLib (PyRandom.seeded 0) []).scene.map
        fun o => o.parent) = [none, none, some "CloudCreator_Shadow"] ∧
    ((execute tProps42NoShadows tLib (PyRandom.seeded 0) []).scene.map
        fun o => o.name) = ["CloudCreator_Sphere"] :=
  ⟨(execute_countName props lib g scene).1,
   (execute_countName props lib g scene).2, rfl, rfl, rfl, rfl⟩

/-- Helper: the reports of the cloud stage are kept (as a prefix) in the
final report list of execute. -/
theorem execute_reports_mem (props : CloudCreatorProperties)
    (lib : AssetLibrary) (g : PyRandom) (scene : List SceneObject)
    (r : Report) (hr : r ∈ (executeCloudStep props lib g scene).2.1) :
    r ∈ (execute props lib g scene).reports := by
  unfold execute
  by_cases hs : props.cloud_shadows <;> by_cases hl : props.add_light <;>
    simp [hs, hl, hr]

/-- C9: execute always returns the FINISHED status; a loader error is
reported as a non-fatal warning and the shadow-plane step still runs
according to its toggle. -/
theorem execute_always_finished (props : CloudCreatorProperties)
    (lib : AssetLibrary) (g : PyRandom) (scene : List SceneObject) :
    (execute props lib g scene).status = "FINISHED" ∧
    (∀ e, props.add_cloud = true →
       (load_cloud_mesh props lib (meshNameOf props) g scene).error =
         some e →
       Report.mk "WARNING" ("CloudCreator: " ++ e) ∈
         (execute props lib g scene).reports) ∧
    (props.cloud_shadows = true →
       countName (execute props lib g scene).scene
           "CloudCreator_Shadow" =
         countName scene "CloudCreator_Shadow" + 1) := by
  refine ⟨?_, ?_, ?_⟩
  · unfold execute
    by_cases hs : props.cloud_shadows <;>
      by_cases hl : props.add_light <;> simp [hs, hl]
  · intro e ha he
    refine execute_reports_mem props lib g scene _ ?_
    simp [executeCloudStep, ha, he]
  · intro hs
    have h := (execute_countName props lib g scene).1
    simpa [hs] using h

/-- Witness for C9: with the missing asset library the loader error is
reported as a warning, and the shadow plane appears nevertheless. -/
theorem execute_always_finished_witness :
    Report.mk "WARNING"
        ("CloudCreator: " ++ ("Assets file not found: " ++
          get_assets_path)) ∈
      (execute tProps42 tLibMissing (PyRandom.seeded 0) []).reports ∧
    countName (execute tProps42 tLibMissing (PyRandom.seeded 0)
        []).scene "CloudCreator_Shadow" =
      countName [] "CloudCreator_Shadow" + 1 :=
  ⟨(execute_always_finished tProps42 tLibMissing (PyRandom.seeded 0)
      []).2.1 _ rfl rfl,
   (execute_always_finished tProps42 tLibMissing (PyRandom.seeded 0)
      []).2.2 rfl⟩

end CloudCreator
